import Mathlib

/-!
Shallow embedding of the scheduling and playback-coordination core of the
vakit-pi repository (src/vakit_pi): domain models (`domain/models.py`),
prayer time calculation (`services/prayer_service.py`), day scheduling
(`services/scheduler_service.py`, `infrastructure/scheduler.py`) and adhan
playback coordination (`services/adhan_service.py`).

Times of day are embedded as integer seconds since local midnight; absolute
instants as integer seconds; calendar dates as integer day numbers.  The
external astronomical calculator, the timezone resolver and the filesystem
are oracle parameters (functions passed in), exactly at the call boundaries
the Python code uses them.
-/

namespace VakitPi

/-- The closed six-element enumeration `PrayerName` from `domain/models.py`,
in chronological order. -/
inductive PrayerName where
  | fajr
  | sunrise
  | dhuhr
  | asr
  | maghrib
  | isha
deriving DecidableEq, Repr

/-- The `.value` string of each `PrayerName` member (`domain/models.py` lines 12-17). -/
def PrayerName.value : PrayerName → String
  | .fajr => "imsak"
  | .sunrise => "gunes"
  | .dhuhr => "ogle"
  | .asr => "ikindi"
  | .maghrib => "aksam"
  | .isha => "yatsi"

/-- Chronological position of a prayer within the enumeration. -/
def PrayerName.idx : PrayerName → Nat
  | .fajr => 0
  | .sunrise => 1
  | .dhuhr => 2
  | .asr => 3
  | .maghrib => 4
  | .isha => 5

/-- Iteration order of `for prayer in PrayerName` (Python enum order). -/
def PrayerName.all : List PrayerName :=
  [.fajr, .sunrise, .dhuhr, .asr, .maghrib, .isha]

/-- The `AdhanType` enumeration from `domain/models.py`. -/
inductive AdhanType where
  | makkah
  | madinah
  | istanbul
deriving DecidableEq, Repr

/-- The `.value` string of each `AdhanType` member. -/
def AdhanType.value : AdhanType → String
  | .makkah => "makkah"
  | .madinah => "madinah"
  | .istanbul => "istanbul"

/-- `AdhanType.filename`: `f"adhan_{self.value}.mp3"`. -/
def AdhanType.filename (t : AdhanType) : String :=
  "adhan_" ++ t.value ++ ".mp3"

/-- `Location` value object (`domain/models.py`).  Coordinates are embedded as
rationals (Python floats in the validated range carry no float-specific
behaviour in the code under verification). -/
structure Location where
  latitude : ℚ
  longitude : ℚ
  city : String := ""
deriving DecidableEq, Repr

/-- Validation performed by `Location.__post_init__`. -/
def Location.valid (l : Location) : Prop :=
  -90 ≤ l.latitude ∧ l.latitude ≤ 90 ∧ -180 ≤ l.longitude ∧ l.longitude ≤ 180

/-- `PrayerOffsets` (`domain/models.py`): six signed minute adjustments. -/
structure PrayerOffsets where
  fajr : Int := 0
  sunrise : Int := 0
  dhuhr : Int := 0
  asr : Int := 0
  maghrib : Int := 0
  isha : Int := 0
deriving DecidableEq, Repr

/-- `PrayerOffsets.get_offset`. -/
def PrayerOffsets.get_offset (o : PrayerOffsets) : PrayerName → Int
  | .fajr => o.fajr
  | .sunrise => o.sunrise
  | .dhuhr => o.dhuhr
  | .asr => o.asr
  | .maghrib => o.maghrib
  | .isha => o.isha

/-- `DIYANET_OFFSETS` (`domain/models.py` line 110). -/
def DIYANET_OFFSETS : PrayerOffsets :=
  { fajr := 0, sunrise := -7, dhuhr := 5, asr := 4, maghrib := 7, isha := 0 }

/-- `PrayerTime` (`domain/models.py`): one prayer's name, time of day (seconds
since midnight) and calendar date (day number). -/
structure PrayerTime where
  name : PrayerName
  time : Int
  date : Int
deriving DecidableEq, Repr

/-- `PrayerTimes` (`domain/models.py`): the six times of one calendar date,
each a time of day in seconds since midnight. -/
structure PrayerTimes where
  date : Int
  fajr : Int
  sunrise : Int
  dhuhr : Int
  asr : Int
  maghrib : Int
  isha : Int
deriving DecidableEq, Repr

/-- `PrayerTimes.get_time`. -/
def PrayerTimes.get_time (t : PrayerTimes) : PrayerName → Int
  | .fajr => t.fajr
  | .sunrise => t.sunrise
  | .dhuhr => t.dhuhr
  | .asr => t.asr
  | .maghrib => t.maghrib
  | .isha => t.isha

/-- The calculator contract from the spec: the six times of a day are
strictly increasing in enumeration order. -/
def PrayerTimes.increasing (t : PrayerTimes) : Prop :=
  t.fajr < t.sunrise ∧ t.sunrise < t.dhuhr ∧ t.dhuhr < t.asr ∧
    t.asr < t.maghrib ∧ t.maghrib < t.isha

instance (t : PrayerTimes) : Decidable t.increasing := by
  unfold PrayerTimes.increasing; infer_instance

/-- `VolumeSettings` (`domain/models.py`): a default volume and six optional
per-prayer overrides. -/
structure VolumeSettings where
  default : Int := 80
  fajr : Option Int := none
  sunrise : Option Int := none
  dhuhr : Option Int := none
  asr : Option Int := none
  maghrib : Option Int := none
  isha : Option Int := none
deriving DecidableEq, Repr

/-- Validation performed by `VolumeSettings.__post_init__`: every present
value lies in `[0, 100]`. -/
def VolumeSettings.valid (v : VolumeSettings) : Prop :=
  (0 ≤ v.default ∧ v.default ≤ 100) ∧
    (∀ x ∈ v.fajr, 0 ≤ x ∧ x ≤ 100) ∧
    (∀ x ∈ v.sunrise, 0 ≤ x ∧ x ≤ 100) ∧
    (∀ x ∈ v.dhuhr, 0 ≤ x ∧ x ≤ 100) ∧
    (∀ x ∈ v.asr, 0 ≤ x ∧ x ≤ 100) ∧
    (∀ x ∈ v.maghrib, 0 ≤ x ∧ x ≤ 100) ∧
    (∀ x ∈ v.isha, 0 ≤ x ∧ x ≤ 100)

instance (v : VolumeSettings) : Decidable v.valid := by
  unfold VolumeSettings.valid; infer_instance

/-- `VolumeSettings.get_volume`: per-prayer override, falling back to the
default. -/
def VolumeSettings.get_volume (v : VolumeSettings) (p : PrayerName) : Int :=
  let specific :=
    match p with
    | .fajr => v.fajr
    | .sunrise => v.sunrise
    | .dhuhr => v.dhuhr
    | .asr => v.asr
    | .maghrib => v.maghrib
    | .isha => v.isha
  specific.getD v.default

/-- Embedding of the Python `dict[str, int | None]` consumed and produced by
`VolumeSettings.from_dict` / `to_dict`, restricted to its seven keys.  An
outer `none` means the key is absent; `some none` means the key is present
with value `None`. -/
structure VolumeDict where
  default : Option (Option Int) := none
  fajr : Option (Option Int) := none
  sunrise : Option (Option Int) := none
  dhuhr : Option (Option Int) := none
  asr : Option (Option Int) := none
  maghrib : Option (Option Int) := none
  isha : Option (Option Int) := none
deriving DecidableEq, Repr

/-- Python `data.get(key, fallback)`: the stored value when the key is
present (possibly `None`), otherwise the fallback. -/
def VolumeDict.getWithDefault (entry : Option (Option Int)) (fallback : Int) : Option Int :=
  match entry with
  | none => some fallback
  | some v => v

/-- Python `data.get(key)` with no fallback: absent keys give `None`. -/
def VolumeDict.getPlain (entry : Option (Option Int)) : Option Int :=
  match entry with
  | none => none
  | some v => v

/-- Python truthiness coercion `x or fallback` on `int | None`: `None` and
`0` are falsy. -/
def orFalsy (x : Option Int) (fallback : Int) : Int :=
  match x with
  | none => fallback
  | some v => if v = 0 then fallback else v

/-- `VolumeSettings.from_dict` (`domain/models.py` lines 228-239):
`default=data.get("default", 80) or 80`, the per-prayer entries read with a
plain `get`. -/
def VolumeSettings.from_dict (data : VolumeDict) : VolumeSettings :=
  { default := orFalsy (VolumeDict.getWithDefault data.default 80) 80
    fajr := VolumeDict.getPlain data.fajr
    sunrise := VolumeDict.getPlain data.sunrise
    dhuhr := VolumeDict.getPlain data.dhuhr
    asr := VolumeDict.getPlain data.asr
    maghrib := VolumeDict.getPlain data.maghrib
    isha := VolumeDict.getPlain data.isha }

/-- `VolumeSettings.to_dict` (`domain/models.py` lines 216-226): every key is
present in the produced dictionary. -/
def VolumeSettings.to_dict (v : VolumeSettings) : VolumeDict :=
  { default := some (some v.default)
    fajr := some v.fajr
    sunrise := some v.sunrise
    dhuhr := some v.dhuhr
    asr := some v.asr
    maghrib := some v.maghrib
    isha := some v.isha }

/-- `PrayerSettings` (`domain/models.py`), restricted to the fields the
scheduling and playback core reads: adhan type, volumes, enabled-prayer set
(embedded as its membership function) and pre-alert lead minutes. -/
structure PrayerSettings where
  adhan_type : AdhanType := .istanbul
  volume : VolumeSettings := {}
  enabled_prayers : PrayerName → Bool
  pre_alert_minutes : Int := 0

/-- `PrayerSettings.is_prayer_enabled`. -/
def PrayerSettings.is_prayer_enabled (s : PrayerSettings) (p : PrayerName) : Bool :=
  s.enabled_prayers p

/-! ## Prayer time calculation service (`services/prayer_service.py`)

`TimezoneFinder.timezone_at` is an external library; its result (an optional
timezone name) is an oracle input to the constructor and to
`update_location`.  The pyIslam astronomical computation is likewise an
oracle: a function giving each prayer's raw time of day in seconds. -/

/-- `TURKEY_TIMEZONES` (`services/prayer_service.py` line 20). -/
def TURKEY_TIMEZONES : List String := ["Europe/Istanbul", "Asia/Istanbul"]

/-- Mutable state of a `PrayerService` instance. -/
structure PrayerServiceState where
  location : Location
  fajr_isha_method : Int
  asr_fiqh : Int
  rounding_seconds : Int
  tz_name : String
  offsets : PrayerOffsets
deriving DecidableEq, Repr

/-- `PrayerService.is_in_turkey`: the resolved timezone name is one of the
Turkish timezones. -/
def PrayerServiceState.is_in_turkey (s : PrayerServiceState) : Bool :=
  s.tz_name ∈ TURKEY_TIMEZONES

/-- `PrayerService.__init__` (`services/prayer_service.py` lines 26-65).
`tz_lookup` is the value returned by `TimezoneFinder.timezone_at` for the
location's coordinates (`none` when the library finds no timezone). -/
def PrayerService.init (location : Location) (tz_lookup : Option String)
    (fajr_isha_method : Int := 2) (asr_fiqh : Int := 1)
    (offsets : Option PrayerOffsets := none) (rounding_seconds : Int := 30)
    (auto_diyanet_offsets : Bool := true) : PrayerServiceState :=
  let tz_name := tz_lookup.getD "UTC"
  let in_turkey : Bool := tz_name ∈ TURKEY_TIMEZONES
  { location := location
    fajr_isha_method := fajr_isha_method
    asr_fiqh := asr_fiqh
    rounding_seconds := rounding_seconds
    tz_name := tz_name
    offsets :=
      match offsets with
      | some o => o
      | none => if auto_diyanet_offsets && in_turkey then DIYANET_OFFSETS else {} }

/-- `PrayerService.update_location` (`services/prayer_service.py` lines
101-106): store the new location and re-resolve the timezone; nothing else
is touched. -/
def PrayerService.update_location (s : PrayerServiceState) (location : Location)
    (tz_lookup : Option String) : PrayerServiceState :=
  { s with location := location, tz_name := tz_lookup.getD "UTC" }

/-- `PrayerService._apply_offset` (`services/prayer_service.py` lines
112-116): combine the raw time of day with the target date, add the offset
minutes plus the rounding bias seconds, take the resulting time of day
(`datetime.time()`), and zero out seconds and microseconds
(`replace(second=0, microsecond=0)`). -/
def PrayerService.apply_offset (rounding_seconds : Int) (time_obj : Int)
    (target_date : Int) (minutes : Int) : Int :=
  let dt := target_date * 86400 + time_obj
  let adjusted := dt + minutes * 60 + rounding_seconds
  let timeOfDay := adjusted.emod 86400
  timeOfDay / 60 * 60

/-- `PrayerService.calculate` (`services/prayer_service.py` lines 118-137).
`raw` is the oracle for the external pyIslam computation: the raw time of
day, in seconds, of each prayer on the target date. -/
def PrayerService.calculate (s : PrayerServiceState) (raw : PrayerName → Int)
    (target_date : Int) : PrayerTimes :=
  { date := target_date
    fajr := PrayerService.apply_offset s.rounding_seconds (raw .fajr) target_date s.offsets.fajr
    sunrise :=
      PrayerService.apply_offset s.rounding_seconds (raw .sunrise) target_date s.offsets.sunrise
    dhuhr := PrayerService.apply_offset s.rounding_seconds (raw .dhuhr) target_date s.offsets.dhuhr
    asr := PrayerService.apply_offset s.rounding_seconds (raw .asr) target_date s.offsets.asr
    maghrib :=
      PrayerService.apply_offset s.rounding_seconds (raw .maghrib) target_date s.offsets.maghrib
    isha := PrayerService.apply_offset s.rounding_seconds (raw .isha) target_date s.offsets.isha }

/-- The spec's published-time formula, written from the spec's words: the
final time is `truncate_to_minute(raw + offset_minutes + rounding_bias)`,
the sum taken on the clock (wrapping at midnight). -/
def truncate_to_minute (t : Int) : Int :=
  t / 60 * 60

/-- Spec-side final published time for one prayer (comparison definition for
the refinement claim about `_apply_offset`). -/
def spec_final_time (raw : Int) (offset_minutes : Int) (rounding_bias : Int) : Int :=
  truncate_to_minute ((raw + offset_minutes * 60 + rounding_bias).emod 86400)

/-- Loop body of `PrayerService.get_current_prayer`: return the first list
entry whose time is at or before the current time. -/
def findCurrent : List (PrayerName × Int) → Int → PrayerName
  | [], _ => .isha
  | pt :: rest, current_time =>
      if current_time ≥ pt.2 then pt.1 else findCurrent rest current_time

/-- `PrayerService.get_current_prayer` (`services/prayer_service.py` lines
143-166): scan today's times from Isha back to Fajr and return the first
whose time is at or before `now`'s time of day; fall back to Isha.  `calc`
is `self.calculate` specialised to the day's raw-time oracle; `now_date` and
`current_time` are `now.date()` and `now.time()`. -/
def PrayerService.get_current_prayer (calcDay : Int → PrayerTimes) (now_date : Int)
    (current_time : Int) : PrayerName :=
  let today_times := calcDay now_date
  findCurrent
    [(.isha, today_times.isha), (.maghrib, today_times.maghrib), (.asr, today_times.asr),
      (.dhuhr, today_times.dhuhr), (.sunrise, today_times.sunrise), (.fajr, today_times.fajr)]
    current_time

/-- Loop body of `PrayerService.get_next_prayer`: the first prayer in
enumeration order whose time is strictly after the current time. -/
def findNext : List PrayerName → PrayerTimes → Int → Option PrayerName
  | [], _, _ => none
  | p :: rest, times, current_time =>
      if current_time < times.get_time p then some p else findNext rest times current_time

/-- `PrayerService.get_next_prayer` (`services/prayer_service.py` lines
168-189): first of today's prayers strictly after `now`'s time of day, else
tomorrow's Fajr dated tomorrow. -/
def PrayerService.get_next_prayer (calcDay : Int → PrayerTimes) (now_date : Int)
    (current_time : Int) : PrayerTime :=
  let today_times := calcDay now_date
  match findNext PrayerName.all today_times current_time with
  | some p => { name := p, time := today_times.get_time p, date := now_date }
  | none =>
      let tomorrow := now_date + 1
      let tomorrow_times := calcDay tomorrow
      { name := .fajr, time := tomorrow_times.fajr, date := tomorrow }

/-! ## Trigger scheduler (`infrastructure/scheduler.py`)

The APScheduler job store is embedded as the list of pending jobs, each a
`(job_id, run_time)` pair. -/

/-- Pending-job store of the `APSchedulerAdapter`. -/
abbrev Sched := List (String × Int)

/-- `APSchedulerAdapter.schedule_at` (`infrastructure/scheduler.py` lines
39-62): remove any existing job with the same id, then add the new job, so
at most one live job shares a key. -/
def schedule_at (s : Sched) (run_time : Int) (job_id : String) : Sched :=
  (job_id, run_time) :: s.filter (fun e => e.1 ≠ job_id)

/-- `APSchedulerAdapter.cancel_all`: remove every pending job. -/
def cancel_all (_ : Sched) : Sched := []

/-- Number of pending jobs with the given id. -/
def cnt (job_id : String) (s : Sched) : Nat :=
  s.countP (fun e => e.1 = job_id)

/-! ## Scheduler service (`services/scheduler_service.py`) -/

/-- `SchedulerService._make_job_id` (`services/scheduler_service.py` lines
48-51): `prayer_<value>_<yyyymmdd>`, with `_<suffix>` appended when a suffix
is given.  `dateStr` stands for `date.strftime("%Y%m%d")`. -/
def make_job_id (prayer : PrayerName) (dateStr : String) (suffix : String := "") : String :=
  let base_id := "prayer_" ++ prayer.value ++ "_" ++ dateStr
  if suffix = "" then base_id else base_id ++ "_" ++ suffix

/-- Loop body of `SchedulerService.schedule_day` for one prayer: skip past
times, skip disabled prayers, otherwise register the adhan job and, when a
positive pre-alert lead is configured and the pre-alert instant is still in
the future, the pre-alert job.  The accumulator carries the `scheduled`
counter and the scheduler store; `times p` is the prayer's absolute
`prayer_datetime` in seconds. -/
def scheduleStep (settings : PrayerSettings) (times : PrayerName → Int) (now : Int)
    (dateStr : String) (acc : Nat × Sched) (p : PrayerName) : Nat × Sched :=
  let prayer_datetime := times p
  if prayer_datetime ≤ now then acc
  else if settings.is_prayer_enabled p = false then acc
  else
    let s1 := schedule_at acc.2 prayer_datetime (make_job_id p dateStr)
    if 0 < settings.pre_alert_minutes then
      let pre_alert_time := prayer_datetime - settings.pre_alert_minutes * 60
      if now < pre_alert_time then
        (acc.1 + 2, schedule_at s1 pre_alert_time (make_job_id p dateStr "pre"))
      else (acc.1 + 1, s1)
    else (acc.1 + 1, s1)

/-- `SchedulerService.schedule_day` (`services/scheduler_service.py` lines
91-149): iterate the six prayers in enumeration order over the scheduler
store, returning the number of jobs registered and the new store. -/
def schedule_day (settings : PrayerSettings) (times : PrayerName → Int) (now : Int)
    (dateStr : String) (s : Sched) : Nat × Sched :=
  PrayerName.all.foldl (scheduleStep settings times now dateStr) (0, s)

/-- `SchedulerService.reschedule` (`services/scheduler_service.py` lines
151-154): cancel every pending job, then plan the day again. -/
def reschedule (settings : PrayerSettings) (times : PrayerName → Int) (now : Int)
    (dateStr : String) (s : Sched) : Nat × Sched :=
  schedule_day settings times now dateStr (cancel_all s)

/-! ## Adhan playback coordination (`services/adhan_service.py`)

The filesystem is the oracle `fs : String → Bool` (`Path.exists`); the
awaited audio-player call is the oracle outcome of the single play. -/

/-- Events published on the bus by the adhan service (`domain/events.py`). -/
inductive DomainEvent where
  | adhanStarted (prayer : PrayerName) (volume : Int)
  | adhanFinished (prayer : PrayerName)
  | audioError (message : String) (prayer : Option PrayerName)
deriving DecidableEq, Repr

/-- Coordinator state of an `AdhanService` instance. -/
structure AdhanState where
  settings : PrayerSettings
  audio_dir : String
  is_playing : Bool

/-- `AdhanService.get_adhan_path` (`services/adhan_service.py` lines 52-82):
prefer the prayer-specific file when it exists, else the adhan type's
default file. -/
def get_adhan_path (st : AdhanState) (fs : String → Bool)
    (adhan_type : Option AdhanType := none) (prayer : Option PrayerName := none) : String :=
  let resolved_type := adhan_type.getD st.settings.adhan_type
  match prayer with
  | some p =>
      let prayer_specific :=
        st.audio_dir ++ "/" ++ ("adhan_" ++ resolved_type.value ++ "_" ++ p.value ++ ".mp3")
      if fs prayer_specific then prayer_specific
      else st.audio_dir ++ "/" ++ resolved_type.filename
  | none => st.audio_dir ++ "/" ++ resolved_type.filename

/-- Outcome of the awaited `audio_player.play` call: normal completion or a
raised exception with its message. -/
inductive PlayOutcome where
  | success
  | failure (message : String)
deriving DecidableEq, Repr

/-- Observable result of one `play_adhan` call: final coordinator state,
events published in order, OS-level playback starts `(path, volume)`, and
whether a playback attempt was actually begun (`false` on the skip, busy
and missing-asset returns). -/
structure PlayResult where
  state : AdhanState
  events : List DomainEvent
  playbacks : List (String × Int)
  accepted : Bool

/-- `AdhanService.play_adhan` (`services/adhan_service.py` lines 84-129):
skip when the prayer is disabled; reject when a session is already active;
emit `AudioErrorEvent` and return when the resolved asset is missing;
otherwise set the busy flag, publish started, play, publish finished on
success or `AudioErrorEvent` on a caught exception, and clear the busy flag
in the `finally` block. -/
def play_adhan (st : AdhanState) (prayer : PrayerName) (fs : String → Bool)
    (outcome : PlayOutcome) : PlayResult :=
  if st.settings.is_prayer_enabled prayer = false then
    { state := st, events := [], playbacks := [], accepted := false }
  else if st.is_playing = true then
    { state := st, events := [], playbacks := [], accepted := false }
  else
    let volume := st.settings.volume.get_volume prayer
    let adhan_path := get_adhan_path st fs none (some prayer)
    if fs adhan_path = false then
      { state := st
        events := [.audioError ("Ezan dosyası bulunamadı: " ++ adhan_path) (some prayer)]
        playbacks := []
        accepted := false }
    else
      match outcome with
      | .success =>
          { state := { st with is_playing := false }
            events := [.adhanStarted prayer volume, .adhanFinished prayer]
            playbacks := [(adhan_path, volume)]
            accepted := true }
      | .failure e =>
          { state := { st with is_playing := false }
            events :=
              [.adhanStarted prayer volume,
                .audioError ("Ezan çalınırken hata: " ++ e) (some prayer)]
            playbacks := [(adhan_path, volume)]
            accepted := true }

/-- Outcome of the test-audio polling loop: natural or timed-out completion,
cooperative cancellation, or a raised exception. -/
inductive TestOutcome where
  | completed
  | cancelled
  | failure (message : String)
deriving DecidableEq, Repr

/-- Observable result of one `test_audio` call. -/
structure TestResult where
  state : AdhanState
  playbacks : List (String × Int)
  success : Bool

/-- `AdhanService.test_audio` (`services/adhan_service.py` lines 142-197):
return `False` when the default asset is missing or a session is already
active; otherwise set the busy flag, start playback, poll up to `duration`
seconds, and clear the busy flag in the `finally` block; cancellation and
exceptions stop playback and return `False`. -/
def test_audio (st : AdhanState) (volume : Option Int) (duration : Int)
    (fs : String → Bool) (outcome : TestOutcome) : TestResult :=
  let resolved_volume := volume.getD st.settings.volume.default
  let adhan_path := get_adhan_path st fs none none
  if fs adhan_path = false then
    { state := st, playbacks := [], success := false }
  else if st.is_playing = true then
    { state := st, playbacks := [], success := false }
  else
    match outcome with
    | .completed =>
        { state := { st with is_playing := false }
          playbacks := [(adhan_path, resolved_volume)]
          success := true }
    | .cancelled =>
        { state := { st with is_playing := false }
          playbacks := [(adhan_path, resolved_volume)]
          success := false }
    | .failure _ =>
        { state := { st with is_playing := false }
          playbacks := [(adhan_path, resolved_volume)]
          success := false }

/-! ## Helper lemmas -/

lemma emod_day_shift (d x : Int) : (d * 86400 + x).emod 86400 = x.emod 86400 := by
  have h : d * 86400 + x = x + 86400 * d := by ring
  rw [h]
  exact Int.add_mul_emod_self_left x 86400 d

/-! ## Claims -/

/-- C9: `update_location` recomputes only the stored location and timezone;
the offsets, rounding seconds, method and fiqh parameters of the service are
unchanged for every prior state and every new location, so moving into or
out of a Turkish timezone after construction never re-applies or removes the
regional preset offsets. -/
theorem C9_update_location_frame (s : PrayerServiceState) (loc : Location)
    (tz_lookup : Option String) :
    (PrayerService.update_location s loc tz_lookup).offsets = s.offsets ∧
    (PrayerService.update_location s loc tz_lookup).rounding_seconds = s.rounding_seconds ∧
    (PrayerService.update_location s loc tz_lookup).fajr_isha_method = s.fajr_isha_method ∧
    (PrayerService.update_location s loc tz_lookup).asr_fiqh = s.asr_fiqh ∧
    (PrayerService.update_location s loc tz_lookup).location = loc ∧
    (PrayerService.update_location s loc tz_lookup).tz_name = tz_lookup.getD "UTC" := by
  simp [PrayerService.update_location]

/-- C7: with no explicit offsets and the default auto flag, a constructor
whose resolved timezone is Turkish selects the Diyanet preset offsets and
reports `is_in_turkey`; any other resolved timezone gives all-zero offsets;
explicit offsets are taken verbatim regardless of location and flags. -/
theorem C7_offset_selection :
    (∀ (loc : Location) (tz_lookup : Option String) (method fiqh rs : Int),
      tz_lookup.getD "UTC" ∈ TURKEY_TIMEZONES →
        (PrayerService.init loc tz_lookup method fiqh none rs true).offsets = DIYANET_OFFSETS ∧
        (PrayerService.init loc tz_lookup method fiqh none rs true).is_in_turkey = true) ∧
    (∀ (loc : Location) (tz_lookup : Option String) (method fiqh rs : Int),
      tz_lookup.getD "UTC" ∉ TURKEY_TIMEZONES →
        (PrayerService.init loc tz_lookup method fiqh none rs true).offsets = {} ∧
        (PrayerService.init loc tz_lookup method fiqh none rs true).is_in_turkey = false) ∧
    (∀ (loc : Location) (tz_lookup : Option String) (method fiqh rs : Int)
      (o : PrayerOffsets) (auto : Bool),
      (PrayerService.init loc tz_lookup method fiqh (some o) rs auto).offsets = o) := by
  refine ⟨?_, ?_, ?_⟩
  · intro loc tz_lookup method fiqh rs h
    simp [PrayerService.init, PrayerServiceState.is_in_turkey, h]
  · intro loc tz_lookup method fiqh rs h
    simp [PrayerService.init, PrayerServiceState.is_in_turkey, h]
  · intro loc tz_lookup method fiqh rs o auto
    simp [PrayerService.init]

/-- Closed instance of `C7_offset_selection`: Istanbul resolves to the
Diyanet preset, Berlin to all-zero offsets, and explicit offsets survive. -/
theorem C7_offset_selection_witness :
    (PrayerService.init ⟨41, 29, "Istanbul"⟩ (some "Europe/Istanbul") 2 1 none 30 true).offsets =
      DIYANET_OFFSETS ∧
    (PrayerService.init ⟨41, 29, "Istanbul"⟩ (some "Europe/Istanbul") 2 1 none 30
      true).is_in_turkey = true ∧
    (PrayerService.init ⟨52, 13, "Berlin"⟩ (some "Europe/Berlin") 2 1 none 30 true).offsets =
      {} ∧
    (PrayerService.init ⟨41, 29, "Istanbul"⟩ (some "Europe/Istanbul") 2 1
      (some { fajr := 3 }) 30 true).offsets = { fajr := 3 } := by
  have h := C7_offset_selection
  obtain ⟨h1, h2⟩ := h.1 ⟨41, 29, "Istanbul"⟩ (some "Europe/Istanbul") 2 1 30 (by decide)
  obtain ⟨h3, _⟩ := h.2.1 ⟨52, 13, "Berlin"⟩ (some "Europe/Berlin") 2 1 30 (by decide)
  exact ⟨h1, h2, h3, h.2.2 ⟨41, 29, "Istanbul"⟩ (some "Europe/Istanbul") 2 1 30 { fajr := 3 } true⟩

/-- C10: `from_dict` coerces a falsy default to 80 (absent key or value 0),
although a zero default is itself accepted by construction; hence the
round-trip `from_dict (to_dict v) = v` fails exactly when `v.default = 0`,
while the per-prayer overrides (including 0) round-trip unchanged. -/
theorem C10_volume_roundtrip :
    (∀ v : VolumeSettings, v.valid →
      (VolumeSettings.from_dict v.to_dict = v ↔ v.default ≠ 0)) ∧
    (∀ data : VolumeDict, (data.default = none ∨ data.default = some (some 0)) →
      (VolumeSettings.from_dict data).default = 80) ∧
    VolumeSettings.valid { default := 0 } ∧
    (∀ v : VolumeSettings,
      (VolumeSettings.from_dict v.to_dict).fajr = v.fajr ∧
      (VolumeSettings.from_dict v.to_dict).sunrise = v.sunrise ∧
      (VolumeSettings.from_dict v.to_dict).dhuhr = v.dhuhr ∧
      (VolumeSettings.from_dict v.to_dict).asr = v.asr ∧
      (VolumeSettings.from_dict v.to_dict).maghrib = v.maghrib ∧
      (VolumeSettings.from_dict v.to_dict).isha = v.isha) := by
  refine ⟨?_, ?_, ?_, ?_⟩
  · rintro ⟨d, f, su, dh, a, m, i⟩ _
    simp only [VolumeSettings.from_dict, VolumeSettings.to_dict, VolumeDict.getWithDefault,
      VolumeDict.getPlain, orFalsy, VolumeSettings.mk.injEq]
    by_cases hd : d = 0 <;> simp [hd]
  · rintro data (h | h) <;>
      simp [VolumeSettings.from_dict, VolumeDict.getWithDefault, orFalsy, h]
  · decide
  · intro v
    simp [VolumeSettings.from_dict, VolumeSettings.to_dict, VolumeDict.getPlain]

/-- Closed instance of `C10_volume_roundtrip`: a valid settings value with
default 80 and a zero Fajr override round-trips; the empty dictionary and a
zero default both produce default 80. -/
theorem C10_volume_roundtrip_witness :
    (VolumeSettings.from_dict (VolumeSettings.to_dict { default := 80, fajr := some 0 }) =
      { default := 80, fajr := some 0 }) ∧
    (VolumeSettings.from_dict {}).default = 80 ∧
    (VolumeSettings.from_dict { default := some (some 0) }).default = 80 := by
  have h := C10_volume_roundtrip
  refine ⟨(h.1 { default := 80, fajr := some 0 } (by decide)).mpr (by decide), ?_, ?_⟩
  · exact h.2.1 {} (Or.inl rfl)
  · exact h.2.1 { default := some (some 0) } (Or.inr rfl)

/-- C6: the final published time of every prayer equals the spec formula
`truncate_to_minute (raw + offset_minutes + rounding_bias)` with the fixed
positive 30-second bias added before truncation, for every raw time, every
per-prayer offset and every target date, whenever the service carries the
default 30-second rounding bias. -/
theorem C6_final_time_formula (s : PrayerServiceState) (raw : PrayerName → Int)
    (target_date : Int) (p : PrayerName) (h : s.rounding_seconds = 30) :
    (PrayerService.calculate s raw target_date).get_time p =
      spec_final_time (raw p) (s.offsets.get_offset p) 30 := by
  have key : ∀ r m : Int,
      (target_date * 86400 + r + m * 60 + 30).emod 86400 = (r + m * 60 + 30).emod 86400 := by
    intro r m
    have hgroup : target_date * 86400 + r + m * 60 + 30 =
        target_date * 86400 + (r + m * 60 + 30) := by ring
    rw [hgroup, emod_day_shift]
  cases p <;>
    simp [PrayerService.calculate, PrayerTimes.get_time, PrayerService.apply_offset,
      spec_final_time, truncate_to_minute, PrayerOffsets.get_offset, h, key]

/-- Closed instance of `C6_final_time_formula`: a raw Dhuhr time of 44171
seconds (12:16:11) with the Diyanet +5 minute offset on day 7 publishes
12:21:00, i.e. 44460 seconds, the round-up the spec formula prescribes. -/
theorem C6_final_time_formula_witness :
    (PrayerService.calculate
      { location := ⟨41, 29, ""⟩, fajr_isha_method := 2, asr_fiqh := 1,
        rounding_seconds := 30, tz_name := "Europe/Istanbul", offsets := DIYANET_OFFSETS }
      (fun _ => 44171) 7).get_time .dhuhr = spec_final_time 44171 5 30 ∧
    spec_final_time 44171 5 30 = 44460 := by
  refine ⟨?_, by decide⟩
  exact C6_final_time_formula
    { location := ⟨41, 29, ""⟩, fajr_isha_method := 2, asr_fiqh := 1,
      rounding_seconds := 30, tz_name := "Europe/Istanbul", offsets := DIYANET_OFFSETS }
    (fun _ => 44171) 7 .dhuhr rfl

/-- C3: while a session is active (busy flag set), a `play_adhan` call and a
`test_audio` call are both rejected: they return a negative result, start no
OS-level playback and leave the coordinator state unchanged. -/
theorem C3_mutual_exclusion (st : AdhanState) (prayer : PrayerName) (fs : String → Bool)
    (po : PlayOutcome) (tvol : Option Int) (tdur : Int) (tout : TestOutcome)
    (h : st.is_playing = true) :
    (play_adhan st prayer fs po).accepted = false ∧
    (play_adhan st prayer fs po).playbacks = [] ∧
    (play_adhan st prayer fs po).state = st ∧
    (play_adhan st prayer fs po).events = [] ∧
    (test_audio st tvol tdur fs tout).success = false ∧
    (test_audio st tvol tdur fs tout).playbacks = [] ∧
    (test_audio st tvol tdur fs tout).state = st := by
  refine ⟨?_, ?_, ?_, ?_, ?_, ?_, ?_⟩ <;>
    · simp only [play_adhan, test_audio, h]
      split_ifs <;> rfl

/-- Closed instance of `C3_mutual_exclusion`: with the busy flag set, a play
request for Fajr and a ten-second audio test are both rejected without side
effects. -/
theorem C3_mutual_exclusion_witness :
    (play_adhan
      { settings := { enabled_prayers := fun _ => true }, audio_dir := "/audio",
        is_playing := true } .fajr (fun _ => true) .success).accepted = false ∧
    (play_adhan
      { settings := { enabled_prayers := fun _ => true }, audio_dir := "/audio",
        is_playing := true } .fajr (fun _ => true) .success).playbacks = [] ∧
    (test_audio
      { settings := { enabled_prayers := fun _ => true }, audio_dir := "/audio",
        is_playing := true } none 10 (fun _ => true) .completed).success = false := by
  have h := C3_mutual_exclusion
    { settings := { enabled_prayers := fun _ => true }, audio_dir := "/audio",
      is_playing := true } .fajr (fun _ => true) .success none 10 .completed rfl
  exact ⟨h.1, h.2.1, h.2.2.2.2.1⟩

/-- C8: `play_adhan` never lets an exception escape (the embedding is a total
function whose only error channel is the published `AudioErrorEvent`): past
the enabled and busy guards, a missing asset publishes an audio-error event
and starts no playback; a failing playback is caught and converted to an
audio-error event; and in every outcome the busy flag ends cleared with the
settings untouched. -/
theorem C8_play_adhan_error_handling (st : AdhanState) (prayer : PrayerName)
    (fs : String → Bool) (outcome : PlayOutcome)
    (hen : st.settings.is_prayer_enabled prayer = true) (hidle : st.is_playing = false) :
    (play_adhan st prayer fs outcome).state.is_playing = false ∧
    (play_adhan st prayer fs outcome).state.settings = st.settings ∧
    (fs (get_adhan_path st fs none (some prayer)) = false →
      (play_adhan st prayer fs outcome).events =
        [.audioError
          ("Ezan dosyası bulunamadı: " ++ get_adhan_path st fs none (some prayer))
          (some prayer)] ∧
      (play_adhan st prayer fs outcome).playbacks = []) ∧
    (∀ e, outcome = .failure e →
      fs (get_adhan_path st fs none (some prayer)) = true →
      (play_adhan st prayer fs outcome).events =
        [.adhanStarted prayer (st.settings.volume.get_volume prayer),
          .audioError ("Ezan çalınırken hata: " ++ e) (some prayer)]) := by
  simp only [play_adhan, hen, hidle]
  by_cases hfs : fs (get_adhan_path st fs none (some prayer)) = false
  · simp [hfs, hidle]
  · have hfs' : fs (get_adhan_path st fs none (some prayer)) = true := by
      revert hfs; cases fs (get_adhan_path st fs none (some prayer)) <;> simp
    cases outcome <;> simp [hfs', hfs]

/-- Closed instance of `C8_play_adhan_error_handling`: with no file present,
an enabled idle coordinator publishes exactly the missing-asset audio-error
event, starts nothing and stays idle. -/
theorem C8_play_adhan_error_handling_witness :
    (play_adhan
      { settings := { enabled_prayers := fun _ => true }, audio_dir := "/audio",
        is_playing := false } .isha (fun _ => false) .success).state.is_playing = false ∧
    (play_adhan
      { settings := { enabled_prayers := fun _ => true }, audio_dir := "/audio",
        is_playing := false } .isha (fun _ => false) .success).events =
      [.audioError ("Ezan dosyası bulunamadı: " ++ "/audio/adhan_istanbul.mp3")
        (some .isha)] ∧
    (play_adhan
      { settings := { enabled_prayers := fun _ => true }, audio_dir := "/audio",
        is_playing := false } .isha (fun _ => false) .success).playbacks = [] := by
  have h := C8_play_adhan_error_handling
    { settings := { enabled_prayers := fun _ => true }, audio_dir := "/audio",
      is_playing := false } .isha (fun _ => false) .success rfl rfl
  exact ⟨h.1, (h.2.2.1 rfl).1, (h.2.2.1 rfl).2⟩

/-- C4: for a day whose six times are strictly increasing,
`get_current_prayer` returns the latest prayer whose time is at or before
`now` (so at or after a prayer's exact instant it returns that prayer), and
before Fajr it returns Isha (previous-day semantics). -/
theorem C4_get_current_prayer (calcDay : Int → PrayerTimes) (now_date current_time : Int)
    (hinc : (calcDay now_date).increasing) :
    (current_time < (calcDay now_date).fajr →
      PrayerService.get_current_prayer calcDay now_date current_time = .isha) ∧
    (∀ p : PrayerName, (calcDay now_date).get_time p ≤ current_time →
      (∀ q : PrayerName, p.idx < q.idx → current_time < (calcDay now_date).get_time q) →
      PrayerService.get_current_prayer calcDay now_date current_time = p) := by
  obtain ⟨h1, h2, h3, h4, h5⟩ := hinc
  constructor
  · intro hf
    simp only [PrayerService.get_current_prayer, findCurrent]
    rw [if_neg (by omega), if_neg (by omega), if_neg (by omega), if_neg (by omega),
      if_neg (by omega), if_neg (by omega)]
  · intro p hp hq
    cases p with
    | fajr =>
        have ha := hq .sunrise (by decide)
        have hb := hq .dhuhr (by decide)
        have hc := hq .asr (by decide)
        have hd := hq .maghrib (by decide)
        have he := hq .isha (by decide)
        simp only [PrayerTimes.get_time] at hp ha hb hc hd he
        simp only [PrayerService.get_current_prayer, findCurrent]
        rw [if_neg (by omega), if_neg (by omega), if_neg (by omega), if_neg (by omega),
          if_neg (by omega), if_pos (by omega)]
    | sunrise =>
        have hb := hq .dhuhr (by decide)
        have hc := hq .asr (by decide)
        have hd := hq .maghrib (by decide)
        have he := hq .isha (by decide)
        simp only [PrayerTimes.get_time] at hp hb hc hd he
        simp only [PrayerService.get_current_prayer, findCurrent]
        rw [if_neg (by omega), if_neg (by omega), if_neg (by omega), if_neg (by omega),
          if_pos (by omega)]
    | dhuhr =>
        have hc := hq .asr (by decide)
        have hd := hq .maghrib (by decide)
        have he := hq .isha (by decide)
        simp only [PrayerTimes.get_time] at hp hc hd he
        simp only [PrayerService.get_current_prayer, findCurrent]
        rw [if_neg (by omega), if_neg (by omega), if_neg (by omega), if_pos (by omega)]
    | asr =>
        have hd := hq .maghrib (by decide)
        have he := hq .isha (by decide)
        simp only [PrayerTimes.get_time] at hp hd he
        simp only [PrayerService.get_current_prayer, findCurrent]
        rw [if_neg (by omega), if_neg (by omega), if_pos (by omega)]
    | maghrib =>
        have he := hq .isha (by decide)
        simp only [PrayerTimes.get_time] at hp he
        simp only [PrayerService.get_current_prayer, findCurrent]
        rw [if_neg (by omega), if_pos (by omega)]
    | isha =>
        simp only [PrayerTimes.get_time] at hp
        simp only [PrayerService.get_current_prayer, findCurrent]
        rw [if_pos (by omega)]

/-- Closed instance of `C4_get_current_prayer`: on a day with times 16200,
21600, 44100, 55800, 68400, 72900, the current prayer at 10000 (before
Fajr) is Isha, at 55800 (Asr's exact instant) is Asr, and at 80000 (after
Isha) is Isha. -/
theorem C4_get_current_prayer_witness :
    PrayerService.get_current_prayer
      (fun d => ⟨d, 16200, 21600, 44100, 55800, 68400, 72900⟩) 0 10000 = .isha ∧
    PrayerService.get_current_prayer
      (fun d => ⟨d, 16200, 21600, 44100, 55800, 68400, 72900⟩) 0 55800 = .asr ∧
    PrayerService.get_current_prayer
      (fun d => ⟨d, 16200, 21600, 44100, 55800, 68400, 72900⟩) 0 80000 = .isha := by
  refine ⟨?_, ?_, ?_⟩
  · exact (C4_get_current_prayer
      (fun d => ⟨d, 16200, 21600, 44100, 55800, 68400, 72900⟩) 0 10000 (by decide)).1
      (by decide)
  · exact (C4_get_current_prayer
      (fun d => ⟨d, 16200, 21600, 44100, 55800, 68400, 72900⟩) 0 55800 (by decide)).2
      .asr (by decide)
      (fun q hq => by cases q <;> first | exact absurd hq (by decide) | decide)
  · exact (C4_get_current_prayer
      (fun d => ⟨d, 16200, 21600, 44100, 55800, 68400, 72900⟩) 0 80000 (by decide)).2
      .isha (by decide)
      (fun q hq => by cases q <;> exact absurd hq (by decide))

/-- C5: `get_next_prayer` returns the first of today's six prayers whose
time is strictly after `now`, with today's date; when all six have passed it
returns tomorrow's Fajr with tomorrow's date; in particular before Fajr on
date D it returns (Fajr, D), and (for an increasing day) at or after Isha it
returns (Fajr, D+1). -/
theorem C5_get_next_prayer (calcDay : Int → PrayerTimes) (now_date current_time : Int) :
    (∀ p : PrayerName, current_time < (calcDay now_date).get_time p →
      (∀ q : PrayerName, q.idx < p.idx → (calcDay now_date).get_time q ≤ current_time) →
      PrayerService.get_next_prayer calcDay now_date current_time =
        { name := p, time := (calcDay now_date).get_time p, date := now_date }) ∧
    ((∀ p : PrayerName, (calcDay now_date).get_time p ≤ current_time) →
      PrayerService.get_next_prayer calcDay now_date current_time =
        { name := .fajr, time := (calcDay (now_date + 1)).fajr, date := now_date + 1 }) ∧
    (current_time < (calcDay now_date).fajr →
      PrayerService.get_next_prayer calcDay now_date current_time =
        { name := .fajr, time := (calcDay now_date).fajr, date := now_date }) ∧
    ((calcDay now_date).increasing → (calcDay now_date).isha ≤ current_time →
      PrayerService.get_next_prayer calcDay now_date current_time =
        { name := .fajr, time := (calcDay (now_date + 1)).fajr, date := now_date + 1 }) := by
  have hfirst : ∀ p : PrayerName, current_time < (calcDay now_date).get_time p →
      (∀ q : PrayerName, q.idx < p.idx → (calcDay now_date).get_time q ≤ current_time) →
      PrayerService.get_next_prayer calcDay now_date current_time =
        { name := p, time := (calcDay now_date).get_time p, date := now_date } := by
    intro p hp hq
    cases p with
    | fajr =>
        simp only [PrayerTimes.get_time] at hp
        simp only [PrayerService.get_next_prayer, findNext, PrayerName.all,
          PrayerTimes.get_time]
        rw [if_pos (by omega)]
    | sunrise =>
        have ha := hq .fajr (by decide)
        simp only [PrayerTimes.get_time] at hp ha
        simp only [PrayerService.get_next_prayer, findNext, PrayerName.all,
          PrayerTimes.get_time]
        rw [if_neg (by omega), if_pos (by omega)]
    | dhuhr =>
        have ha := hq .fajr (by decide)
        have hb := hq .sunrise (by decide)
        simp only [PrayerTimes.get_time] at hp ha hb
        simp only [PrayerService.get_next_prayer, findNext, PrayerName.all,
          PrayerTimes.get_time]
        rw [if_neg (by omega), if_neg (by omega), if_pos (by omega)]
    | asr =>
        have ha := hq .fajr (by decide)
        have hb := hq .sunrise (by decide)
        have hc := hq .dhuhr (by decide)
        simp only [PrayerTimes.get_time] at hp ha hb hc
        simp only [PrayerService.get_next_prayer, findNext, PrayerName.all,
          PrayerTimes.get_time]
        rw [if_neg (by omega), if_neg (by omega), if_neg (by omega), if_pos (by omega)]
    | maghrib =>
        have ha := hq .fajr (by decide)
        have hb := hq .sunrise (by decide)
        have hc := hq .dhuhr (by decide)
        have hd := hq .asr (by decide)
        simp only [PrayerTimes.get_time] at hp ha hb hc hd
        simp only [PrayerService.get_next_prayer, findNext, PrayerName.all,
          PrayerTimes.get_time]
        rw [if_neg (by omega), if_neg (by omega), if_neg (by omega), if_neg (by omega),
          if_pos (by omega)]
    | isha =>
        have ha := hq .fajr (by decide)
        have hb := hq .sunrise (by decide)
        have hc := hq .dhuhr (by decide)
        have hd := hq .asr (by decide)
        have he := hq .maghrib (by decide)
        simp only [PrayerTimes.get_time] at hp ha hb hc hd he
        simp only [PrayerService.get_next_prayer, findNext, PrayerName.all,
          PrayerTimes.get_time]
        rw [if_neg (by omega), if_neg (by omega), if_neg (by omega), if_neg (by omega),
          if_neg (by omega), if_pos (by omega)]
  have hall : (∀ p : PrayerName, (calcDay now_date).get_time p ≤ current_time) →
      PrayerService.get_next_prayer calcDay now_date current_time =
        { name := .fajr, time := (calcDay (now_date + 1)).fajr, date := now_date + 1 } := by
    intro hp
    have ha := hp .fajr
    have hb := hp .sunrise
    have hc := hp .dhuhr
    have hd := hp .asr
    have he := hp .maghrib
    have hf := hp .isha
    simp only [PrayerTimes.get_time] at ha hb hc hd he hf
    simp only [PrayerService.get_next_prayer, findNext, PrayerName.all, PrayerTimes.get_time]
    rw [if_neg (by omega), if_neg (by omega), if_neg (by omega), if_neg (by omega),
      if_neg (by omega), if_neg (by omega)]
  refine ⟨hfirst, hall, ?_, ?_⟩
  · intro hf
    have := hfirst .fajr (by simpa [PrayerTimes.get_time] using hf)
      (fun q hq => absurd hq (by cases q <;> simp [PrayerName.idx]))
    simpa [PrayerTimes.get_time] using this
  · intro hinc hi
    obtain ⟨h1, h2, h3, h4, h5⟩ := hinc
    exact hall (fun p => by cases p <;> simp [PrayerTimes.get_time] <;> omega)

/-- Closed instance of `C5_get_next_prayer`: on the same sample day, at
50000 the next prayer is Asr today, at 10000 (before Fajr) it is Fajr
today, and at 72900 (Isha's instant) it is tomorrow's Fajr dated
tomorrow. -/
theorem C5_get_next_prayer_witness :
    PrayerService.get_next_prayer
      (fun d => ⟨d, 16200, 21600, 44100, 55800, 68400, 72900⟩) 3 50000 =
      { name := .asr, time := 55800, date := 3 } ∧
    PrayerService.get_next_prayer
      (fun d => ⟨d, 16200, 21600, 44100, 55800, 68400, 72900⟩) 3 10000 =
      { name := .fajr, time := 16200, date := 3 } ∧
    PrayerService.get_next_prayer
      (fun d => ⟨d, 16200, 21600, 44100, 55800, 68400, 72900⟩) 3 72900 =
      { name := .fajr, time := 16200, date := 4 } := by
  refine ⟨?_, ?_, ?_⟩
  · exact (C5_get_next_prayer
      (fun d => ⟨d, 16200, 21600, 44100, 55800, 68400, 72900⟩) 3 50000).1
      .asr (by decide)
      (fun q hq => by cases q <;> first | exact absurd hq (by decide) | decide)
  · exact (C5_get_next_prayer
      (fun d => ⟨d, 16200, 21600, 44100, 55800, 68400, 72900⟩) 3 10000).2.2.1 (by decide)
  · exact (C5_get_next_prayer
      (fun d => ⟨d, 16200, 21600, 44100, 55800, 68400, 72900⟩) 3 72900).2.2.2
      (by decide) (by decide)

/-! ## Job-key disequality lemmas -/

lemma string_eq_of_data {s t : String} (h : s.data = t.data) : s = t := by
  cases s; cases t; exact congrArg String.mk h

lemma value_data_ne : ∀ {p q : PrayerName}, p ≠ q → p.value.data ≠ q.value.data := by
  intro p q hne
  cases p <;> cases q <;> first | exact absurd rfl hne | decide

lemma make_job_id_empty (p : PrayerName) (d : String) :
    make_job_id p d = "prayer_" ++ p.value ++ "_" ++ d := by
  simp [make_job_id]

lemma make_job_id_pre_eq (p : PrayerName) (d : String) :
    make_job_id p d "pre" = "prayer_" ++ p.value ++ "_" ++ d ++ "_" ++ "pre" := by
  simp [make_job_id]

lemma key_ne_key {p q : PrayerName} (h : p ≠ q) (d : String) :
    make_job_id p d ≠ make_job_id q d := by
  rw [make_job_id_empty, make_job_id_empty]
  intro he
  have hd := congrArg String.data he
  simp only [String.data_append, List.append_assoc] at hd
  exact value_data_ne h (List.append_cancel_right (List.append_cancel_left hd))

lemma pre_ne_pre {p q : PrayerName} (h : p ≠ q) (d : String) :
    make_job_id p d "pre" ≠ make_job_id q d "pre" := by
  rw [make_job_id_pre_eq, make_job_id_pre_eq]
  intro he
  have hd := congrArg String.data he
  simp only [String.data_append, List.append_assoc] at hd
  exact value_data_ne h (List.append_cancel_right (List.append_cancel_left hd))

lemma key_ne_pre (p q : PrayerName) (d : String) :
    make_job_id p d ≠ make_job_id q d "pre" := by
  rw [make_job_id_empty, make_job_id_pre_eq]
  intro he
  have hl := congrArg String.length he
  simp only [String.length_append] at hl
  have hp : p.value.length ≤ 6 := by cases p <;> decide
  have hq : 4 ≤ q.value.length := by cases q <;> decide
  have e1 : ("prayer_" : String).length = 7 := by decide
  have e2 : ("_" : String).length = 1 := by decide
  have e3 : ("pre" : String).length = 3 := by decide
  rw [e1, e2, e3] at hl
  omega

/-! ## Scheduler store lemmas -/

lemma cnt_schedule_at_self (s : Sched) (t : Int) (k : String) :
    cnt k (schedule_at s t k) = 1 := by
  simp only [cnt, schedule_at, List.countP_cons]
  have h0 : (s.filter (fun e => e.1 ≠ k)).countP (fun e => e.1 = k) = 0 := by
    rw [List.countP_eq_zero]
    intro a ha
    have hmem := (List.mem_filter.mp ha).2
    simp only [decide_not, Bool.not_eq_eq_eq_not, Bool.not_true, decide_eq_false_iff_not]
      at hmem
    simp [hmem]
  simp [h0]

lemma cnt_schedule_at_ne {k j : String} (h : k ≠ j) (s : Sched) (t : Int) :
    cnt k (schedule_at s t j) = cnt k s := by
  simp only [cnt, schedule_at, List.countP_cons, List.countP_filter]
  have hpt : ∀ e : String × Int,
      (decide (e.1 = k) && decide (e.1 ≠ j)) = decide (e.1 = k) := by
    intro e
    by_cases he : e.1 = k
    · subst he; simp [h]
    · simp [he]
  simp only [hpt]
  have hj : ¬(j = k) := fun hc => h hc.symm
  simp [hj]

lemma mem_schedule_at_self (s : Sched) (t : Int) (k : String) :
    (k, t) ∈ schedule_at s t k :=
  List.mem_cons_self _ _

lemma mem_schedule_at_ne {k j : String} (h : k ≠ j) (s : Sched) (t t' : Int) :
    ((k, t) ∈ schedule_at s t' j) ↔ (k, t) ∈ s := by
  simp only [schedule_at, List.mem_cons, List.mem_filter, Prod.mk.injEq]
  constructor
  · rintro (⟨hk, _⟩ | ⟨hmem, _⟩)
    · exact absurd hk h
    · exact hmem
  · intro hmem
    exact Or.inr ⟨hmem, by simp [h]⟩

/-! ## Schedule-day step and fold lemmas -/

lemma cnt_step_of_ne (settings : PrayerSettings) (times : PrayerName → Int) (now : Int)
    (dateStr : String) (acc : Nat × Sched) (p : PrayerName) {k : String}
    (h1 : k ≠ make_job_id p dateStr) (h2 : k ≠ make_job_id p dateStr "pre") :
    cnt k (scheduleStep settings times now dateStr acc p).2 = cnt k acc.2 := by
  simp only [scheduleStep]
  split_ifs <;> simp [cnt_schedule_at_ne h1, cnt_schedule_at_ne h2]

lemma cnt_step_self_main (settings : PrayerSettings) (times : PrayerName → Int) (now : Int)
    (dateStr : String) (acc : Nat × Sched) (p : PrayerName) :
    cnt (make_job_id p dateStr) (scheduleStep settings times now dateStr acc p).2 =
      if now < times p ∧ settings.is_prayer_enabled p = true then 1
      else cnt (make_job_id p dateStr) acc.2 := by
  simp only [scheduleStep]
  by_cases hpast : times p ≤ now
  · rw [if_pos hpast, if_neg (fun hc : now < times p ∧ _ => absurd hc.1 (by omega))]
  · rw [if_neg hpast]
    by_cases hen : settings.is_prayer_enabled p = false
    · rw [if_pos hen,
        if_neg (fun hc : _ ∧ settings.is_prayer_enabled p = true => by
          rw [hen] at hc; exact Bool.false_ne_true hc.2)]
    · have hen' : settings.is_prayer_enabled p = true := by
        revert hen; cases settings.is_prayer_enabled p <;> simp
      have hcond : now < times p ∧ settings.is_prayer_enabled p = true := ⟨by omega, hen'⟩
      rw [if_neg hen, if_pos hcond]
      by_cases hpre : 0 < settings.pre_alert_minutes
      · rw [if_pos hpre]
        by_cases hfut : now < times p - settings.pre_alert_minutes * 60
        · rw [if_pos hfut]
          simp [cnt_schedule_at_ne (key_ne_pre p p dateStr), cnt_schedule_at_self]
        · rw [if_neg hfut]
          simp [cnt_schedule_at_self]
      · rw [if_neg hpre]
        simp [cnt_schedule_at_self]

lemma cnt_step_self_pre (settings : PrayerSettings) (times : PrayerName → Int) (now : Int)
    (dateStr : String) (acc : Nat × Sched) (p : PrayerName) :
    cnt (make_job_id p dateStr "pre") (scheduleStep settings times now dateStr acc p).2 =
      if now < times p ∧ settings.is_prayer_enabled p = true ∧
          0 < settings.pre_alert_minutes ∧
          now < times p - settings.pre_alert_minutes * 60 then 1
      else cnt (make_job_id p dateStr "pre") acc.2 := by
  simp only [scheduleStep]
  by_cases hpast : times p ≤ now
  · rw [if_pos hpast, if_neg (fun hc : now < times p ∧ _ => absurd hc.1 (by omega))]
  · rw [if_neg hpast]
    by_cases hen : settings.is_prayer_enabled p = false
    · rw [if_pos hen,
        if_neg (fun hc : _ ∧ settings.is_prayer_enabled p = true ∧ _ => by
          rw [hen] at hc; exact Bool.false_ne_true hc.2.1)]
    · have hen' : settings.is_prayer_enabled p = true := by
        revert hen; cases settings.is_prayer_enabled p <;> simp
      rw [if_neg hen]
      by_cases hpre : 0 < settings.pre_alert_minutes
      · rw [if_pos hpre]
        by_cases hfut : now < times p - settings.pre_alert_minutes * 60
        · have hcond : now < times p ∧ settings.is_prayer_enabled p = true ∧
              0 < settings.pre_alert_minutes ∧
              now < times p - settings.pre_alert_minutes * 60 := ⟨by omega, hen', hpre, hfut⟩
          rw [if_pos hfut, if_pos hcond]
          simp [cnt_schedule_at_self]
        · rw [if_neg hfut, if_neg (fun hc => absurd hc.2.2.2 hfut)]
          simp [cnt_schedule_at_ne (Ne.symm (key_ne_pre p p dateStr))]
      · rw [if_neg hpre, if_neg (fun hc => absurd hc.2.2.1 hpre)]
        simp [cnt_schedule_at_ne (Ne.symm (key_ne_pre p p dateStr))]

lemma mem_step_of_ne (settings : PrayerSettings) (times : PrayerName → Int) (now : Int)
    (dateStr : String) (acc : Nat × Sched) (p : PrayerName) {k : String} (t : Int)
    (h1 : k ≠ make_job_id p dateStr) (h2 : k ≠ make_job_id p dateStr "pre") :
    ((k, t) ∈ (scheduleStep settings times now dateStr acc p).2) ↔ (k, t) ∈ acc.2 := by
  simp only [scheduleStep]
  split_ifs <;> simp [mem_schedule_at_ne h1, mem_schedule_at_ne h2]

lemma mem_step_self_main (settings : PrayerSettings) (times : PrayerName → Int) (now : Int)
    (dateStr : String) (acc : Nat × Sched) (p : PrayerName) (hnow : now < times p)
    (hen : settings.is_prayer_enabled p = true) :
    (make_job_id p dateStr, times p) ∈ (scheduleStep settings times now dateStr acc p).2 := by
  simp only [scheduleStep]
  rw [if_neg (by omega), if_neg (by simp [hen])]
  by_cases hpre : 0 < settings.pre_alert_minutes
  · rw [if_pos hpre]
    by_cases hfut : now < times p - settings.pre_alert_minutes * 60
    · rw [if_pos hfut]
      exact (mem_schedule_at_ne (key_ne_pre p p dateStr) _ _ _).mpr
        (mem_schedule_at_self _ _ _)
    · rw [if_neg hfut]
      exact mem_schedule_at_self _ _ _
  · rw [if_neg hpre]
    exact mem_schedule_at_self _ _ _

lemma mem_step_self_pre (settings : PrayerSettings) (times : PrayerName → Int) (now : Int)
    (dateStr : String) (acc : Nat × Sched) (p : PrayerName) (hnow : now < times p)
    (hen : settings.is_prayer_enabled p = true) (hpre : 0 < settings.pre_alert_minutes)
    (hfut : now < times p - settings.pre_alert_minutes * 60) :
    (make_job_id p dateStr "pre", times p - settings.pre_alert_minutes * 60) ∈
      (scheduleStep settings times now dateStr acc p).2 := by
  simp only [scheduleStep]
  rw [if_neg (by omega), if_neg (by simp [hen]), if_pos hpre, if_pos hfut]
  exact mem_schedule_at_self _ _ _

lemma cnt_fold_of_ne (settings : PrayerSettings) (times : PrayerName → Int) (now : Int)
    (dateStr : String) (L : List PrayerName) (acc : Nat × Sched) {k : String}
    (h : ∀ q ∈ L, k ≠ make_job_id q dateStr ∧ k ≠ make_job_id q dateStr "pre") :
    cnt k ((L.foldl (scheduleStep settings times now dateStr) acc)).2 = cnt k acc.2 := by
  induction L generalizing acc with
  | nil => rfl
  | cons q L ih =>
      rw [List.foldl_cons, ih _ (fun r hr => h r (List.mem_cons_of_mem _ hr))]
      exact cnt_step_of_ne settings times now dateStr acc q
        (h q (List.mem_cons_self _ _)).1 (h q (List.mem_cons_self _ _)).2

lemma mem_fold_of_ne (settings : PrayerSettings) (times : PrayerName → Int) (now : Int)
    (dateStr : String) (L : List PrayerName) (acc : Nat × Sched) {k : String} (t : Int)
    (h : ∀ q ∈ L, k ≠ make_job_id q dateStr ∧ k ≠ make_job_id q dateStr "pre") :
    ((k, t) ∈ (L.foldl (scheduleStep settings times now dateStr) acc).2) ↔
      (k, t) ∈ acc.2 := by
  induction L generalizing acc with
  | nil => exact Iff.rfl
  | cons q L ih =>
      rw [List.foldl_cons, ih _ (fun r hr => h r (List.mem_cons_of_mem _ hr))]
      exact mem_step_of_ne settings times now dateStr acc q t
        (h q (List.mem_cons_self _ _)).1 (h q (List.mem_cons_self _ _)).2

lemma cnt_fold_main (settings : PrayerSettings) (times : PrayerName → Int) (now : Int)
    (dateStr : String) (L : List PrayerName) (hnd : L.Nodup) (p : PrayerName) (hp : p ∈ L)
    (acc : Nat × Sched) :
    cnt (make_job_id p dateStr) ((L.foldl (scheduleStep settings times now dateStr) acc)).2 =
      if now < times p ∧ settings.is_prayer_enabled p = true then 1
      else cnt (make_job_id p dateStr) acc.2 := by
  induction L generalizing acc with
  | nil => cases hp
  | cons q L ih =>
      rw [List.foldl_cons]
      rcases List.mem_cons.mp hp with heq | hmem
      · subst heq
        have hnotin : p ∉ L := (List.nodup_cons.mp hnd).1
        rw [cnt_fold_of_ne settings times now dateStr L _
          (fun r hr => ⟨key_ne_key (by rintro rfl; exact hnotin hr) dateStr,
            key_ne_pre p r dateStr⟩)]
        exact cnt_step_self_main settings times now dateStr acc p
      · have hpq : p ≠ q := by
          rintro rfl; exact (List.nodup_cons.mp hnd).1 hmem
        rw [ih (List.nodup_cons.mp hnd).2 hmem,
          cnt_step_of_ne settings times now dateStr acc q (key_ne_key hpq dateStr)
            (key_ne_pre p q dateStr)]

lemma cnt_fold_pre (settings : PrayerSettings) (times : PrayerName → Int) (now : Int)
    (dateStr : String) (L : List PrayerName) (hnd : L.Nodup) (p : PrayerName) (hp : p ∈ L)
    (acc : Nat × Sched) :
    cnt (make_job_id p dateStr "pre")
        ((L.foldl (scheduleStep settings times now dateStr) acc)).2 =
      if now < times p ∧ settings.is_prayer_enabled p = true ∧
          0 < settings.pre_alert_minutes ∧
          now < times p - settings.pre_alert_minutes * 60 then 1
      else cnt (make_job_id p dateStr "pre") acc.2 := by
  induction L generalizing acc with
  | nil => cases hp
  | cons q L ih =>
      rw [List.foldl_cons]
      rcases List.mem_cons.mp hp with heq | hmem
      · subst heq
        have hnotin : p ∉ L := (List.nodup_cons.mp hnd).1
        rw [cnt_fold_of_ne settings times now dateStr L _
          (fun r hr => ⟨Ne.symm (key_ne_pre r p dateStr),
            pre_ne_pre (by rintro rfl; exact hnotin hr) dateStr⟩)]
        exact cnt_step_self_pre settings times now dateStr acc p
      · have hpq : p ≠ q := by
          rintro rfl; exact (List.nodup_cons.mp hnd).1 hmem
        rw [ih (List.nodup_cons.mp hnd).2 hmem,
          cnt_step_of_ne settings times now dateStr acc q
            (Ne.symm (key_ne_pre q p dateStr)) (pre_ne_pre hpq dateStr)]

lemma mem_fold_main (settings : PrayerSettings) (times : PrayerName → Int) (now : Int)
    (dateStr : String) (L : List PrayerName) (hnd : L.Nodup) (p : PrayerName) (hp : p ∈ L)
    (acc : Nat × Sched) (hnow : now < times p)
    (hen : settings.is_prayer_enabled p = true) :
    (make_job_id p dateStr, times p) ∈
      (L.foldl (scheduleStep settings times now dateStr) acc).2 := by
  induction L generalizing acc with
  | nil => cases hp
  | cons q L ih =>
      rw [List.foldl_cons]
      rcases List.mem_cons.mp hp with heq | hmem
      · subst heq
        have hnotin : p ∉ L := (List.nodup_cons.mp hnd).1
        rw [mem_fold_of_ne settings times now dateStr L _ _
          (fun r hr => ⟨key_ne_key (by rintro rfl; exact hnotin hr) dateStr,
            key_ne_pre p r dateStr⟩)]
        exact mem_step_self_main settings times now dateStr acc p hnow hen
      · exact ih (List.nodup_cons.mp hnd).2 hmem _

lemma mem_fold_pre (settings : PrayerSettings) (times : PrayerName → Int) (now : Int)
    (dateStr : String) (L : List PrayerName) (hnd : L.Nodup) (p : PrayerName) (hp : p ∈ L)
    (acc : Nat × Sched) (hnow : now < times p)
    (hen : settings.is_prayer_enabled p = true) (hpre : 0 < settings.pre_alert_minutes)
    (hfut : now < times p - settings.pre_alert_minutes * 60) :
    (make_job_id p dateStr "pre", times p - settings.pre_alert_minutes * 60) ∈
      (L.foldl (scheduleStep settings times now dateStr) acc).2 := by
  induction L generalizing acc with
  | nil => cases hp
  | cons q L ih =>
      rw [List.foldl_cons]
      rcases List.mem_cons.mp hp with heq | hmem
      · subst heq
        have hnotin : p ∉ L := (List.nodup_cons.mp hnd).1
        rw [mem_fold_of_ne settings times now dateStr L _ _
          (fun r hr => ⟨Ne.symm (key_ne_pre r p dateStr),
            pre_ne_pre (by rintro rfl; exact hnotin hr) dateStr⟩)]
        exact mem_step_self_pre settings times now dateStr acc p hnow hen hpre hfut
      · exact ih (List.nodup_cons.mp hnd).2 hmem _

lemma prayer_all_nodup : PrayerName.all.Nodup := by decide

lemma prayer_mem_all (p : PrayerName) : p ∈ PrayerName.all := by
  cases p <;> decide

/-- C1: `schedule_day` registers, per prayer of the target day, no trigger
when its datetime has passed or it is disabled; otherwise exactly one
trigger under the deterministic `prayer_<name>_<yyyymmdd>` key at the
prayer's instant, plus — when a positive pre-alert lead is configured and
the pre-alert instant is still in the future — exactly one `_pre`-keyed
trigger at `prayer_time − pre_alert_minutes`, and no `_pre` trigger
otherwise.  In particular the 23:50 scenario with only Isha enabled
(pre-alert 10, Isha 20:15) registers zero triggers and returns 0. -/
theorem C1_schedule_day_triggers (settings : PrayerSettings) (times : PrayerName → Int)
    (now : Int) (dateStr : String) :
    (∀ p : PrayerName, times p ≤ now ∨ settings.is_prayer_enabled p = false →
      cnt (make_job_id p dateStr) (schedule_day settings times now dateStr []).2 = 0 ∧
      cnt (make_job_id p dateStr "pre")
        (schedule_day settings times now dateStr []).2 = 0) ∧
    (∀ p : PrayerName, now < times p → settings.is_prayer_enabled p = true →
      cnt (make_job_id p dateStr) (schedule_day settings times now dateStr []).2 = 1 ∧
      (make_job_id p dateStr, times p) ∈ (schedule_day settings times now dateStr []).2 ∧
      (0 < settings.pre_alert_minutes →
        now < times p - settings.pre_alert_minutes * 60 →
        cnt (make_job_id p dateStr "pre")
          (schedule_day settings times now dateStr []).2 = 1 ∧
        (make_job_id p dateStr "pre", times p - settings.pre_alert_minutes * 60) ∈
          (schedule_day settings times now dateStr []).2) ∧
      (¬(0 < settings.pre_alert_minutes ∧
          now < times p - settings.pre_alert_minutes * 60) →
        cnt (make_job_id p dateStr "pre")
          (schedule_day settings times now dateStr []).2 = 0)) ∧
    schedule_day ⟨.istanbul, {}, fun p => decide (p = PrayerName.isha), 10⟩
      (fun p => match p with
        | .fajr => 16200 | .sunrise => 21600 | .dhuhr => 44100
        | .asr => 55800 | .maghrib => 68400 | .isha => 72900)
      85800 "20240101" [] = (0, []) := by
  refine ⟨?_, ?_, by decide⟩
  · intro p hdis
    have hcond : ¬(now < times p ∧ settings.is_prayer_enabled p = true) := by
      rcases hdis with h | h
      · exact fun hc => absurd hc.1 (by omega)
      · exact fun hc => by rw [h] at hc; exact Bool.false_ne_true hc.2
    constructor
    · simp only [schedule_day]
      rw [cnt_fold_main settings times now dateStr PrayerName.all prayer_all_nodup p
        (prayer_mem_all p) (0, []), if_neg hcond]
      rfl
    · simp only [schedule_day]
      rw [cnt_fold_pre settings times now dateStr PrayerName.all prayer_all_nodup p
        (prayer_mem_all p) (0, []), if_neg (fun hc => hcond ⟨hc.1, hc.2.1⟩)]
      rfl
  · intro p hnow hen
    refine ⟨?_, ?_, ?_, ?_⟩
    · simp only [schedule_day]
      rw [cnt_fold_main settings times now dateStr PrayerName.all prayer_all_nodup p
        (prayer_mem_all p) (0, []), if_pos ⟨hnow, hen⟩]
    · exact mem_fold_main settings times now dateStr PrayerName.all prayer_all_nodup p
        (prayer_mem_all p) (0, []) hnow hen
    · intro hpre hfut
      constructor
      · simp only [schedule_day]
        rw [cnt_fold_pre settings times now dateStr PrayerName.all prayer_all_nodup p
          (prayer_mem_all p) (0, []), if_pos ⟨hnow, hen, hpre, hfut⟩]
      · exact mem_fold_pre settings times now dateStr PrayerName.all prayer_all_nodup p
          (prayer_mem_all p) (0, []) hnow hen hpre hfut
    · intro hnc
      simp only [schedule_day]
      rw [cnt_fold_pre settings times now dateStr PrayerName.all prayer_all_nodup p
        (prayer_mem_all p) (0, []), if_neg (fun hc => hnc ⟨hc.2.2.1, hc.2.2.2⟩)]
      rfl

/-- Closed instance of `C1_schedule_day_triggers`: with every prayer enabled,
pre-alert 10 and all times at 3600 seconds ahead of a midnight `now`, Dhuhr
gets exactly one main trigger and its pre-alert trigger at 3000; with every
prayer disabled, Fajr gets no trigger. -/
theorem C1_schedule_day_triggers_witness :
    cnt (make_job_id .dhuhr "20251010")
      (schedule_day ⟨.istanbul, {}, fun _ => true, 10⟩
        (fun _ => 3600) 0 "20251010" []).2 = 1 ∧
    (make_job_id .dhuhr "20251010" "pre", 3600 - 10 * 60) ∈
      (schedule_day ⟨.istanbul, {}, fun _ => true, 10⟩
        (fun _ => 3600) 0 "20251010" []).2 ∧
    cnt (make_job_id .fajr "20251010")
      (schedule_day ⟨.istanbul, {}, fun _ => false, 10⟩
        (fun _ => 3600) 0 "20251010" []).2 = 0 := by
  have h := C1_schedule_day_triggers ⟨.istanbul, {}, fun _ => true, 10⟩
    (fun _ => 3600) 0 "20251010"
  have hoff := C1_schedule_day_triggers ⟨.istanbul, {}, fun _ => false, 10⟩
    (fun _ => 3600) 0 "20251010"
  obtain ⟨hm, _, hpre, _⟩ := h.2.1 .dhuhr (by decide) rfl
  exact ⟨hm, (hpre (by decide) (by decide)).2, (hoff.1 .fajr (Or.inr rfl)).1⟩

/-- C2: `reschedule` is idempotent on the pending-trigger store: for every
clock instant, settings and prior store, running it twice leaves exactly the
pending jobs (hence trigger keys) of running it once, and reports the same
count, because it first cancels every pending job and registrations replace
same-key jobs. -/
theorem C2_reschedule_idempotent (settings : PrayerSettings) (times : PrayerName → Int)
    (now : Int) (dateStr : String) (s : Sched) :
    (reschedule settings times now dateStr
        ((reschedule settings times now dateStr s).2)).2 =
      (reschedule settings times now dateStr s).2 ∧
    (reschedule settings times now dateStr
        ((reschedule settings times now dateStr s).2)).1 =
      (reschedule settings times now dateStr s).1 :=
  ⟨rfl, rfl⟩

end VakitPi
